import Mathlib

/-!
Verification development for the Selfbus bus-updater command engine
(`Bus-Updater/src/update.cpp`) and the boot-descriptor validator
(`boot_descriptor_block.c`).

Modelling conventions: 32-bit machine integers are `Nat` with an explicit
`% 2 ^ 32` wherever the C code can wrap; byte arrays (telegram data, the
4 KiB staging buffer `ramBuffer`, flash, the outbound telegram) are
functions `Nat → Nat`; the dispatcher `handleMemoryRequests` becomes a pure
step function from an explicit state record to a new state plus the
returned `T_ACK_PDU`/`T_NACK_PDU` byte.  External collaborators (the IAP
flash driver, the CRC-32 primitive, the program-pin GPIO and the link-time
constants `__vectors_start__`/`_etext`) are supplied through an environment
record `UpdEnv`.
-/

/-! Opcodes of the updater protocol (the `UPD_*` enum in `update.cpp`). -/

def UPD_ERASE_SECTOR : Nat := 0

def UPD_SEND_DATA : Nat := 1

def UPD_PROGRAM : Nat := 2

def UPD_UPDATE_BOOT_DESC : Nat := 3

def UPD_REQ_DATA : Nat := 10

def UPD_GET_LAST_ERROR : Nat := 20

def UPD_SEND_LAST_ERROR : Nat := 21

def UPD_UNLOCK_DEVICE : Nat := 30

def UPD_REQUEST_UID : Nat := 31

def UPD_RESPONSE_UID : Nat := 32

def UPD_APP_VERSION_REQUEST : Nat := 33

def UPD_APP_VERSION_RESPONSE : Nat := 34

/-- Lock sentinel `0x5AA55AA5` from `update.cpp`. -/
def DEVICE_LOCKED : Nat := 0x5AA55AA5

/-- Unlock sentinel: the 32-bit complement `~DEVICE_LOCKED` of the lock sentinel. -/
def DEVICE_UNLOCKED : Nat := 0xFFFFFFFF - DEVICE_LOCKED

/-- Success status of the IAP flash driver (external, value 0). -/
def IAP_SUCCESS : Nat := 0

/-! Error codes of the `UPD_Status` enum (starting at `0x100`). -/

def UDP_UNKONW_COMMAND : Nat := 0x100

def UDP_CRC_EROR : Nat := 0x101

def UPD_ADDRESS_NOT_ALLOWED_TO_FLASH : Nat := 0x102

def UPD_SECTOR_NOT_ALLOWED_TO_ERASE : Nat := 0x103

def UPD_RAM_BUFFER_OVERFLOW : Nat := 0x104

def UPD_WRONG_DESCRIPTOR_BLOCK : Nat := 0x105

def UPD_APPLICATION_NOT_STARTABLE : Nat := 0x106

def UPD_DEVICE_LOCKED : Nat := 0x107

def UPD_UID_MISSMATCH : Nat := 0x108

def UDP_NOT_IMPLEMENTED : Nat := 0xFFFF

/-- Transport-layer acknowledge PDU byte (external constant from sblib). -/
def T_ACK_PDU : Nat := 0xC2

/-- Transport-layer negative-acknowledge PDU byte (external constant from sblib). -/
def T_NACK_PDU : Nat := 0xC3

/-- Big-endian u32 decode by explicit byte shifts, `streamToUIn32` in `update.cpp`;
`off` is the pointer handed to the C function. -/
def streamToUIn32 (buffer : Nat → Nat) (off : Nat) : Nat :=
  buffer off <<< 24 ||| buffer (off + 1) <<< 16 ||| buffer (off + 2) <<< 8 ||| buffer (off + 3)

/-- The `ADDRESS2SECTOR(a) = (a + 4095) / 4096` macro, on 32-bit arithmetic. -/
def ADDRESS2SECTOR (a : Nat) : Nat := ((a + 4095) % 2 ^ 32) / 4096

/-- `sectorAllowedToErease` from `update.cpp`, with the link-time constants
`__vectors_start__` and `_etext` passed explicitly. -/
def sectorAllowedToErease (vectorsStart etext sectorNumber : Nat) : Bool :=
  if sectorNumber = 0 then false
  else ! decide (ADDRESS2SECTOR vectorsStart ≤ sectorNumber ∧ sectorNumber ≤ ADDRESS2SECTOR etext)

/-- `addressAllowedToProgram` from `update.cpp`; `end = start + length` is a
32-bit sum and may wrap. -/
def addressAllowedToProgram (vectorsStart etext start length : Nat) : Bool :=
  let endAddr := (start + length) % 2 ^ 32
  ! decide (vectorsStart ≤ start ∧ endAddr ≤ etext)

/-- Little-endian 32-bit word read from a byte map (ARM memory layout used by
the `unsigned int *` dereferences in `checkVectorTable`). -/
def readWord32 (mem : Nat → Nat) (a : Nat) : Nat :=
  mem a ||| mem (a + 1) <<< 8 ||| mem (a + 2) <<< 16 ||| mem (a + 3) <<< 24

/-- `checkVectorTable` from `boot_descriptor_block.c`: the eight 32-bit words
at `start` must sum to zero in 32-bit arithmetic. -/
def checkVectorTable (flash : Nat → Nat) (start : Nat) : Bool :=
  decide ((List.range 8).foldl (fun cs i => (cs + readWord32 flash (start + 4 * i)) % 2 ^ 32) 0 = 0)

/-- The `AppDescriptionBlock` record fields used by the sources. -/
structure AppDescriptionBlock where
  startAddress : Nat
  endAddress : Nat
  crc : Nat
  appVersionAddress : Nat

/-- Modelled from the spec: the `AppDescriptionBlock` header is not among the
given sources; per spec section 3 the 256-byte block starts with the u32
fields `startAddress`, `endAddress`, `crc`, `appVersionAddress`, read
little-endian from device memory. -/
def readDescriptor (buf : Nat → Nat) : AppDescriptionBlock :=
  { startAddress := readWord32 buf 0
    endAddress := readWord32 buf 4
    crc := readWord32 buf 8
    appVersionAddress := readWord32 buf 12 }

/-- `checkApplication` from `boot_descriptor_block.c`.  The CRC-32 primitive
is external, so it is passed as a function `crc32f seed stream count`; the
byte count `endAddress - startAddress` is a 32-bit subtraction. -/
def checkApplication (crc32f : Nat → (Nat → Nat) → Nat → Nat) (flash : Nat → Nat)
    (block : AppDescriptionBlock) : Bool :=
  if block.startAddress > 0x5000 then false
  else if block.endAddress > 0x100000 then false
  else if block.startAddress = block.endAddress then false
  else if crc32f 0xFFFFFFFF (fun i => flash (block.startAddress + i))
      ((2 ^ 32 + block.endAddress - block.startAddress) % 2 ^ 32) = block.crc then
    checkVectorTable flash block.startAddress
  else false

/-- `getAppVersion` from `boot_descriptor_block.c`: returns the pointer stored
in the descriptor's `appVersionAddress` field (offset 12) at `blockAddr`. -/
def getAppVersion (flash : Nat → Nat) (blockAddr : Nat) : Nat :=
  readWord32 flash (blockAddr + 12)

/-- External environment of one dispatcher call: program-pin GPIO, the UID
read status and bytes delivered by `iapReadUID`, the CRC-32 primitive, and
the device/link-time constants `__vectors_start__`, `_etext`, `FIRST_SECTOR`,
`BOOT_BLOCK_SIZE`, `BOOT_BLOCK_PAGE`. -/
structure UpdEnv where
  progPinStatus : Bool
  uidReadStatus : Nat
  uid : Nat → Nat
  crc32 : Nat → (Nat → Nat) → Nat → Nat
  vectorsStart : Nat
  etext : Nat
  firstSector : Nat
  bootBlockSize : Nat
  bootBlockPage : Nat

/-- Mutable state of the dispatcher: the static locals of
`handleMemoryRequests` (`ramLocation`, `deviceLocked`, `lastError`), the
global `ramBuffer`, the flash contents, and the outbound telegram buffer
together with the `sendTel` out-flag. -/
structure UpdState where
  ramBuffer : Nat → Nat
  ramLocation : Nat
  deviceLocked : Nat
  lastError : Nat
  flash : Nat → Nat
  sendTelegram : Nat → Nat
  sendTel : Bool

/-- Byte-wise `memcpy dstMem[dst ..] ← src[0 .. n)`. -/
def memcpyBytes (dstMem : Nat → Nat) (dst : Nat) (src : Nat → Nat) (n : Nat) : Nat → Nat :=
  fun i => if dst ≤ i ∧ i < dst + n then src (i - dst) else dstMem i

/-- Modelled from the spec: the external flash driver's `eraseSector(s)`
(section 6); erases the 4096-byte sector `s` to `0xFF` and reports success. -/
def iapEraseSector (flash : Nat → Nat) (sector : Nat) : (Nat → Nat) × Nat :=
  (fun a => if sector * 4096 ≤ a ∧ a < (sector + 1) * 4096 then 0xFF else flash a, IAP_SUCCESS)

/-- Modelled from the spec: the external flash driver's `erasePage(p)`
(section 6); erases the 256-byte page `p` to `0xFF` and reports success. -/
def iapErasePage (flash : Nat → Nat) (page : Nat) : (Nat → Nat) × Nat :=
  (fun a => if page * 256 ≤ a ∧ a < (page + 1) * 256 then 0xFF else flash a, IAP_SUCCESS)

/-- Modelled from the spec: the external flash driver's `program(dst, src, n)`
(section 6); writes `n` bytes of `src` to flash at `dst` and reports success. -/
def iapProgram (flash : Nat → Nat) (dst : Nat) (src : Nat → Nat) (n : Nat) : (Nat → Nat) × Nat :=
  (memcpyBytes flash dst src n, IAP_SUCCESS)

/-- `_prepareReturnTelegram` from `update.cpp`: fills bytes 5..9 of the
outbound telegram and returns `true` (the returned flag is handled at the
call sites of the step function below). -/
def _prepareReturnTelegram (tel : Nat → Nat) (count cmd : Nat) : Nat → Nat :=
  fun i =>
    if i = 5 then 0x63 + count
    else if i = 6 then 0x42
    else if i = 7 then 0x40 ||| count
    else if i = 8 then 0
    else if i = 9 then cmd
    else tel i

/-- Flash address `FIRST_SECTOR - (1 + slot) * BOOT_BLOCK_SIZE` of a boot
descriptor block, on 32-bit arithmetic. -/
def bootBlockAddress (env : UpdEnv) (slot : Nat) : Nat :=
  (2 ^ 32 + env.firstSector - ((1 + slot) * env.bootBlockSize) % 2 ^ 32) % 2 ^ 32

/-- The `switch (data[2])` body of `handleMemoryRequests` in `update.cpp`
(compiled without `ENABLE_EMULATION`, as in the source).  Returns the state
after the one dispatched command. -/
def handleMemoryRequestsSwitch (env : UpdEnv) (st : UpdState) (data : Nat → Nat) : UpdState :=
  let count := data 0 &&& 0x0f
  if data 2 = UPD_UNLOCK_DEVICE then
    if env.progPinStatus = false then
      { st with deviceLocked := DEVICE_UNLOCKED, lastError := IAP_SUCCESS }
    else
      let swept :=
        (List.range 12).foldl
          (fun le i => if data (i + 3) ≠ env.uid i then UPD_UID_MISSMATCH else le)
          st.lastError
      let st1 :=
        if env.uidReadStatus = IAP_SUCCESS then { st with lastError := swept }
        else st
      if st1.lastError ≠ UPD_UID_MISSMATCH then
        { st1 with deviceLocked := DEVICE_UNLOCKED, lastError := IAP_SUCCESS }
      else st1
  else if data 2 = UPD_REQUEST_UID then
    if env.progPinStatus = false then
      if env.uidReadStatus = IAP_SUCCESS then
        let tel :=
          memcpyBytes (_prepareReturnTelegram st.sendTelegram 12 UPD_RESPONSE_UID) 10 env.uid 12
        { st with lastError := env.uidReadStatus, sendTel := true, sendTelegram := tel }
      else { st with lastError := env.uidReadStatus }
    else { st with lastError := UPD_DEVICE_LOCKED }
  else if data 2 = UPD_APP_VERSION_REQUEST then
    let appversion := getAppVersion st.flash (bootBlockAddress env (data 3))
    if appversion < 0x50000 then
      let tel :=
        memcpyBytes (_prepareReturnTelegram st.sendTelegram 12 UPD_APP_VERSION_RESPONSE) 10
          (fun k => st.flash (appversion + k)) 12
      { st with sendTel := true, sendTelegram := tel, lastError := IAP_SUCCESS }
    else { st with lastError := UPD_APPLICATION_NOT_STARTABLE }
  else if data 2 = UPD_ERASE_SECTOR then
    let st1 :=
      if st.deviceLocked = DEVICE_UNLOCKED then
        if sectorAllowedToErease env.vectorsStart env.etext (data 3) then
          let r := iapEraseSector st.flash (data 3)
          { st with flash := r.1, lastError := r.2 }
        else { st with lastError := UPD_SECTOR_NOT_ALLOWED_TO_ERASE }
      else { st with lastError := UPD_DEVICE_LOCKED }
    { st1 with ramLocation := 0 }
  else if data 2 = UPD_SEND_DATA then
    if st.deviceLocked = DEVICE_UNLOCKED then
      if (st.ramLocation + count) % 2 ^ 32 < 4096 then
        { st with
          ramBuffer := memcpyBytes st.ramBuffer st.ramLocation (fun k => data (3 + k)) count,
          ramLocation := (st.ramLocation + count) % 2 ^ 32,
          lastError := IAP_SUCCESS }
      else { st with lastError := UPD_RAM_BUFFER_OVERFLOW }
    else { st with lastError := UPD_DEVICE_LOCKED }
  else if data 2 = UPD_PROGRAM then
    let st1 :=
      if st.deviceLocked = DEVICE_UNLOCKED then
        let cnt := streamToUIn32 data 3
        let address := streamToUIn32 data 7
        if addressAllowedToProgram env.vectorsStart env.etext address cnt then
          if env.crc32 0xFFFFFFFF st.ramBuffer cnt = streamToUIn32 data 11 then
            let r := iapProgram st.flash address st.ramBuffer cnt
            { st with flash := r.1, lastError := r.2 }
          else { st with lastError := UDP_CRC_EROR }
        else { st with lastError := UPD_ADDRESS_NOT_ALLOWED_TO_FLASH }
      else { st with lastError := UPD_DEVICE_LOCKED }
    { st1 with ramLocation := 0 }
  else if data 2 = UPD_UPDATE_BOOT_DESC then
    let st1 :=
      if st.deviceLocked = DEVICE_UNLOCKED then
        let address := bootBlockAddress env (data 7)
        if env.crc32 0xFFFFFFFF st.ramBuffer 256 = streamToUIn32 data 3 then
          if checkApplication env.crc32 st.flash (readDescriptor st.ramBuffer) then
            let r1 := iapErasePage st.flash ((2 ^ 32 + env.bootBlockPage - data 7) % 2 ^ 32)
            let st2 := { st with flash := r1.1, lastError := r1.2 }
            if st2.lastError = IAP_SUCCESS then
              let r2 := iapProgram st2.flash address st.ramBuffer 256
              { st2 with flash := r2.1, lastError := r2.2 }
            else st2
          else { st with lastError := UPD_APPLICATION_NOT_STARTABLE }
        else { st with lastError := UDP_CRC_EROR }
      else { st with lastError := UPD_DEVICE_LOCKED }
    { st1 with ramLocation := 0 }
  else if data 2 = UPD_REQ_DATA then
    if st.deviceLocked = DEVICE_UNLOCKED then
      { st with lastError := UDP_NOT_IMPLEMENTED }
    else { st with lastError := UPD_DEVICE_LOCKED }
  else if data 2 = UPD_GET_LAST_ERROR then
    let tel :=
      memcpyBytes (_prepareReturnTelegram st.sendTelegram 4 UPD_SEND_LAST_ERROR) 10
        (fun k => st.lastError / 2 ^ (8 * k) % 256) 4
    { st with sendTel := true, sendTelegram := tel, lastError := IAP_SUCCESS }
  else
    { st with lastError := UDP_UNKONW_COMMAND }

/-- `handleMemoryRequests` from `update.cpp`: executes the dispatched command
and returns the new state together with `T_ACK_PDU` when the final
`lastError` is `IAP_SUCCESS`, else `T_NACK_PDU`. -/
def handleMemoryRequests (env : UpdEnv) (st : UpdState) (data : Nat → Nat) : UpdState × Nat :=
  let s := handleMemoryRequestsSwitch env st data
  (s, if s.lastError = IAP_SUCCESS then T_ACK_PDU else T_NACK_PDU)

/-- The opcodes actually handled by the compiled switch (everything else
falls to the `default` branch). -/
def handledOpcodes : List Nat :=
  [UPD_ERASE_SECTOR, UPD_SEND_DATA, UPD_PROGRAM, UPD_UPDATE_BOOT_DESC,
   UPD_REQ_DATA, UPD_GET_LAST_ERROR, UPD_UNLOCK_DEVICE, UPD_REQUEST_UID,
   UPD_APP_VERSION_REQUEST]

/-! Concrete inputs used by the witnesses and counterexamples. -/

/-- All-zero byte map. -/
def bZero : Nat → Nat := fun _ => 0

/-- Frame whose opcode byte (index 2) is `op` and whose other bytes are 0. -/
def frameOf (op : Nat) : Nat → Nat := fun i => if i = 2 then op else 0

/-- Concrete environment: program pin reads `true` (UID path for unlock), UID
read succeeds with all-zero UID, trivial CRC-32 function, updater reservation
`0x1000 .. 0x3FFF`. -/
def env0 : UpdEnv :=
  { progPinStatus := true
    uidReadStatus := IAP_SUCCESS
    uid := bZero
    crc32 := fun _ _ _ => 0
    vectorsStart := 0x1000
    etext := 0x3FFF
    firstSector := 0x7000
    bootBlockSize := 256
    bootBlockPage := 111 }

/-- Concrete environment with a failing UID read. -/
def envUidFail : UpdEnv :=
  { env0 with uidReadStatus := 1 }

/-- Concrete locked state with everything zeroed. -/
def st0 : UpdState :=
  { ramBuffer := bZero
    ramLocation := 0
    deviceLocked := DEVICE_LOCKED
    lastError := 0
    flash := bZero
    sendTelegram := bZero
    sendTel := false }

/-- Concrete unlocked state. -/
def stU : UpdState :=
  { st0 with deviceLocked := DEVICE_UNLOCKED }

/-- Concrete locked state with a non-zero staging cursor. -/
def stCursor5 : UpdState :=
  { st0 with ramLocation := 5 }

/-- Concrete locked state whose pre-existing `lastError` is `UPD_UID_MISSMATCH`. -/
def stMismatch : UpdState :=
  { st0 with lastError := UPD_UID_MISSMATCH }

/-- Concrete unlocked state with a non-zero staging cursor and a marked buffer. -/
def stUCursor : UpdState :=
  { stU with ramLocation := 7, ramBuffer := fun i => if i < 7 then 9 else 0 }

/-! Helper lemmas. -/

/-- A fold that overwrites the accumulator with `M` whenever the predicate
holds (the unlock UID sweep) equals an if-then-else on existence. -/
theorem foldl_latch_eq (M : Nat) (p : Nat → Prop) [DecidablePred p] (l : List Nat) (a : Nat) :
    l.foldl (fun le i => if p i then M else le) a = if ∃ i ∈ l, p i then M else a := by
  induction l generalizing a with
  | nil => simp
  | cons x xs ih =>
    simp only [List.foldl_cons]
    by_cases hx : p x
    · simp [hx, ih]
    · simp [hx, ih]

/-- Folding 32-bit wrapped addition equals the plain sum taken modulo. -/
theorem foldl_modadd_eq (f : Nat → Nat) (m : Nat) (l : List Nat) (a : Nat) :
    l.foldl (fun cs i => (cs + f i) % m) (a % m) = (a + (l.map f).sum) % m := by
  induction l generalizing a with
  | nil => simp
  | cons x xs ih =>
    simp only [List.foldl_cons, List.map_cons, List.sum_cons]
    rw [Nat.mod_add_mod, ih (a + f x), Nat.add_assoc]

/-- Variant of `foldl_modadd_eq` starting from accumulator 0. -/
theorem foldl_modadd_zero (f : Nat → Nat) (m : Nat) (l : List Nat) :
    l.foldl (fun cs i => (cs + f i) % m) 0 = (l.map f).sum % m := by
  have h := foldl_modadd_eq f m l 0
  simpa using h

/-- The vector-table check holds iff the eight words sum to 0 modulo 2^32. -/
theorem checkVectorTable_iff (flash : Nat → Nat) (start : Nat) :
    checkVectorTable flash start = true ↔
      ((List.range 8).map fun i => readWord32 flash (start + 4 * i)).sum % 2 ^ 32 = 0 := by
  unfold checkVectorTable
  rw [foldl_modadd_zero]
  simp

/-! Claim theorems. -/

/-- Claim C4: `rangeProgrammable` (source name `addressAllowedToProgram`)
returns false if and only if the byte range is wholly contained in the
updater reservation, that is `UPDATER_START ≤ a` and the 32-bit sum `a + n`
is at most `UPDATER_END`; in particular every range wholly inside the
reservation is refused, and a range starting below `UPDATER_START`
(straddling the updater boundary) is permitted. -/
theorem C4_rangeProgrammable (vs et a n : Nat) :
    (addressAllowedToProgram vs et a n = false ↔ vs ≤ a ∧ (a + n) % 2 ^ 32 ≤ et)
  ∧ (vs ≤ a → a + n ≤ et → et < 2 ^ 32 → addressAllowedToProgram vs et a n = false)
  ∧ (a < vs → addressAllowedToProgram vs et a n = true) := by
  refine ⟨?_, ?_, ?_⟩
  · simp [addressAllowedToProgram]
  · intro h1 h2 h3
    simp only [addressAllowedToProgram, Bool.not_eq_false', decide_eq_true_eq]
    exact ⟨h1, by rw [Nat.mod_eq_of_lt (Nat.lt_of_le_of_lt h2 h3)]; exact h2⟩
  · intro h
    simp only [addressAllowedToProgram, Bool.not_eq_true', decide_eq_false_iff_not]
    exact fun hc => absurd hc.1 (Nat.not_le.mpr h)

/-- Witness for C4 at the spec's example reservation `0x1000 .. 0x3FFF`:
the contained range `[0x1000, 0x2000)` is refused and the straddling range
`[0x0F00, 0x1F00)` is permitted. -/
theorem C4_rangeProgrammable_witness :
    ((0x1000:Nat) ≤ 0x1000 ∧ (0x1000:Nat) + 0x1000 ≤ 0x3FFF ∧ (0x3FFF:Nat) < 2 ^ 32
      ∧ (0x0F00:Nat) < 0x1000)
  ∧ addressAllowedToProgram 0x1000 0x3FFF 0x1000 0x1000 = false
  ∧ addressAllowedToProgram 0x1000 0x3FFF 0x0F00 0x1000 = true := by
  refine ⟨by norm_num, ?_, ?_⟩
  · exact (C4_rangeProgrammable 0x1000 0x3FFF 0x1000 0x1000).2.1 (by norm_num) (by norm_num)
      (by norm_num)
  · exact (C4_rangeProgrammable 0x1000 0x3FFF 0x0F00 0x1000).2.2 (by norm_num)

/-- Claim C5: `sectorErasable` (source name `sectorAllowedToErease`) returns
false exactly when the sector is 0 or lies in the closed interval of
updater-owned sectors `⌈UPDATER_START/4096⌉ .. ⌈UPDATER_END/4096⌉`, the
ceilings being the `ADDRESS2SECTOR` values `(x + 4095) / 4096`; it returns
true for every other sector. -/
theorem C5_sectorErasable (vs et s : Nat) (hvs : vs + 4095 < 2 ^ 32) (het : et + 4095 < 2 ^ 32) :
    sectorAllowedToErease vs et s = false ↔
      s = 0 ∨ ((vs + 4095) / 4096 ≤ s ∧ s ≤ (et + 4095) / 4096) := by
  unfold sectorAllowedToErease ADDRESS2SECTOR
  rw [Nat.mod_eq_of_lt hvs, Nat.mod_eq_of_lt het]
  by_cases h0 : s = 0
  · simp [h0]
  · simp [h0]

/-- Witness for C5: the spec's scenario 6, sector 2 with the reservation
`0x1000 .. 0x3FFF` (updater-owned sectors 1..4), is refused. -/
theorem C5_sectorErasable_witness :
    ((0x1000:Nat) + 4095 < 2 ^ 32 ∧ (0x3FFF:Nat) + 4095 < 2 ^ 32)
  ∧ sectorAllowedToErease 0x1000 0x3FFF 2 = false := by
  refine ⟨by norm_num, ?_⟩
  exact (C5_sectorErasable 0x1000 0x3FFF 2 (by norm_num) (by norm_num)).mpr
    (Or.inr (by norm_num))

/-- Claim C3: the descriptor validator `checkApplication` returns true iff
all five conditions hold: `startAddress ≤ 0x5000`, `endAddress ≤ 0x100000`,
`startAddress ≠ endAddress`, the CRC-32 (seed `0xFFFFFFFF`) of the flash
bytes from `startAddress` for the 32-bit length `endAddress - startAddress`
equals the descriptor's `crc` field, and the eight 32-bit words at
`startAddress` sum to 0 modulo 2^32; moreover when an unlocked
`UPD_UPDATE_BOOT_DESC` whose staged CRC matches finds the validator false,
`lastError` becomes `UPD_APPLICATION_NOT_STARTABLE`. -/
theorem C3_checkApplication_iff (crc32f : Nat → (Nat → Nat) → Nat → Nat) (flash : Nat → Nat)
    (b : AppDescriptionBlock) (env : UpdEnv) (st : UpdState) (data : Nat → Nat) :
    (checkApplication crc32f flash b = true ↔
      (b.startAddress ≤ 0x5000 ∧ b.endAddress ≤ 0x100000 ∧ b.startAddress ≠ b.endAddress
        ∧ crc32f 0xFFFFFFFF (fun i => flash (b.startAddress + i))
            ((2 ^ 32 + b.endAddress - b.startAddress) % 2 ^ 32) = b.crc
        ∧ ((List.range 8).map fun i => readWord32 flash (b.startAddress + 4 * i)).sum % 2 ^ 32 = 0))
  ∧ (st.deviceLocked = DEVICE_UNLOCKED → data 2 = UPD_UPDATE_BOOT_DESC →
      env.crc32 0xFFFFFFFF st.ramBuffer 256 = streamToUIn32 data 3 →
      checkApplication env.crc32 st.flash (readDescriptor st.ramBuffer) = false →
      (handleMemoryRequests env st data).1.lastError = UPD_APPLICATION_NOT_STARTABLE) := by
  constructor
  · unfold checkApplication
    split_ifs with h1 h2 h3 h4
    · simp only [Bool.false_eq_true, false_iff]
      exact fun hc => absurd h1 (Nat.not_lt.mpr hc.1)
    · simp only [Bool.false_eq_true, false_iff]
      exact fun hc => absurd h2 (Nat.not_lt.mpr hc.2.1)
    · simp only [Bool.false_eq_true, false_iff]
      exact fun hc => hc.2.2.1 h3
    · rw [checkVectorTable_iff]
      constructor
      · exact fun hv => ⟨Nat.not_lt.mp h1, Nat.not_lt.mp h2, h3, h4, hv⟩
      · exact fun hc => hc.2.2.2.2
    · simp only [Bool.false_eq_true, false_iff]
      exact fun hc => h4 hc.2.2.2.1
  · intro hU hop hcrc hval
    simp [handleMemoryRequests, handleMemoryRequestsSwitch, hop, hU, hcrc, hval,
      UPD_UNLOCK_DEVICE, UPD_REQUEST_UID, UPD_APP_VERSION_REQUEST, UPD_ERASE_SECTOR,
      UPD_SEND_DATA, UPD_PROGRAM, UPD_UPDATE_BOOT_DESC, UPD_REQ_DATA, UPD_GET_LAST_ERROR,
      IAP_SUCCESS, UPD_APPLICATION_NOT_STARTABLE]

/-- Witness for C3: an unlocked `UPD_UPDATE_BOOT_DESC` with an all-zero
staged descriptor (start = end = 0, so the validator rejects) and a matching
outer CRC sets `lastError = UPD_APPLICATION_NOT_STARTABLE`. -/
theorem C3_checkApplication_witness :
    stU.deviceLocked = DEVICE_UNLOCKED
  ∧ frameOf UPD_UPDATE_BOOT_DESC 2 = UPD_UPDATE_BOOT_DESC
  ∧ checkApplication env0.crc32 stU.flash (readDescriptor stU.ramBuffer) = false
  ∧ (handleMemoryRequests env0 stU (frameOf UPD_UPDATE_BOOT_DESC)).1.lastError
      = UPD_APPLICATION_NOT_STARTABLE :=
  ⟨rfl, rfl, by decide,
    (C3_checkApplication_iff env0.crc32 stU.flash (readDescriptor stU.ramBuffer) env0 stU
      (frameOf UPD_UPDATE_BOOT_DESC)).2 rfl rfl (by decide) (by decide)⟩

/-- Counterexample to claim C1 as stated: a locked `UPD_ERASE_SECTOR` frame
resets the staging cursor (here from 5 to 0), so the staging-buffer state is
not left fully unchanged while locked. -/
theorem C1_locked_cursor_cex :
    stCursor5.deviceLocked = DEVICE_LOCKED
  ∧ frameOf UPD_ERASE_SECTOR 2 = UPD_ERASE_SECTOR
  ∧ stCursor5.ramLocation = 5
  ∧ (handleMemoryRequests env0 stCursor5 (frameOf UPD_ERASE_SECTOR)).1.ramLocation = 0
  ∧ (handleMemoryRequests env0 stCursor5 (frameOf UPD_ERASE_SECTOR)).1.ramLocation
      ≠ stCursor5.ramLocation := by
  refine ⟨rfl, rfl, rfl, ?_, ?_⟩ <;> decide

/-- Claim C1 (amended): while the device is locked, `UPD_ERASE_SECTOR`,
`UPD_SEND_DATA`, `UPD_PROGRAM` and `UPD_UPDATE_BOOT_DESC` leave the
staging-buffer contents and flash unchanged, set
`lastError = UPD_DEVICE_LOCKED` and return `T_NACK_PDU`; the staging cursor
is left unchanged by `UPD_SEND_DATA` but reset to 0 by the other three. -/
theorem C1_locked_refusal (env : UpdEnv) (st : UpdState) (data : Nat → Nat)
    (hL : st.deviceLocked = DEVICE_LOCKED)
    (hop : data 2 = UPD_ERASE_SECTOR ∨ data 2 = UPD_SEND_DATA ∨ data 2 = UPD_PROGRAM
      ∨ data 2 = UPD_UPDATE_BOOT_DESC) :
    (handleMemoryRequests env st data).1.ramBuffer = st.ramBuffer
  ∧ (handleMemoryRequests env st data).1.flash = st.flash
  ∧ (handleMemoryRequests env st data).1.lastError = UPD_DEVICE_LOCKED
  ∧ (handleMemoryRequests env st data).2 = T_NACK_PDU
  ∧ (handleMemoryRequests env st data).1.ramLocation
      = (if data 2 = UPD_SEND_DATA then st.ramLocation else 0) := by
  have hne : st.deviceLocked = DEVICE_UNLOCKED ↔ False := by
    rw [hL]; simp [DEVICE_LOCKED, DEVICE_UNLOCKED]
  rcases hop with h | h | h | h <;>
    simp [handleMemoryRequests, handleMemoryRequestsSwitch, h, hne,
      UPD_UNLOCK_DEVICE, UPD_REQUEST_UID, UPD_APP_VERSION_REQUEST, UPD_ERASE_SECTOR,
      UPD_SEND_DATA, UPD_PROGRAM, UPD_UPDATE_BOOT_DESC, UPD_REQ_DATA, UPD_GET_LAST_ERROR,
      UPD_DEVICE_LOCKED, IAP_SUCCESS, T_NACK_PDU]

/-- Witness for C1 (amended) at a concrete locked state and an
`UPD_ERASE_SECTOR` frame. -/
theorem C1_locked_refusal_witness :
    st0.deviceLocked = DEVICE_LOCKED
  ∧ frameOf UPD_ERASE_SECTOR 2 = UPD_ERASE_SECTOR
  ∧ (handleMemoryRequests env0 st0 (frameOf UPD_ERASE_SECTOR)).1.lastError = UPD_DEVICE_LOCKED
  ∧ (handleMemoryRequests env0 st0 (frameOf UPD_ERASE_SECTOR)).2 = T_NACK_PDU :=
  ⟨rfl, rfl,
    (C1_locked_refusal env0 st0 (frameOf UPD_ERASE_SECTOR) rfl (Or.inl rfl)).2.2.1,
    (C1_locked_refusal env0 st0 (frameOf UPD_ERASE_SECTOR) rfl (Or.inl rfl)).2.2.2.1⟩

/-- Counterexample to claim C2 as stated: program pin deasserted (UID
authentication path), successful UID read, all 12 payload bytes matching the
UID — yet the device stays locked and `lastError` stays `UPD_UID_MISSMATCH`,
because the pre-existing `lastError` was already `UPD_UID_MISSMATCH`. -/
theorem C2_unlock_stale_error_cex :
    env0.progPinStatus = true
  ∧ env0.uidReadStatus = IAP_SUCCESS
  ∧ ((List.range 12).all fun i => frameOf UPD_UNLOCK_DEVICE (i + 3) == env0.uid i) = true
  ∧ stMismatch.deviceLocked = DEVICE_LOCKED
  ∧ (handleMemoryRequests env0 stMismatch (frameOf UPD_UNLOCK_DEVICE)).1.deviceLocked
      = DEVICE_LOCKED
  ∧ (handleMemoryRequests env0 stMismatch (frameOf UPD_UNLOCK_DEVICE)).1.lastError
      = UPD_UID_MISSMATCH := by
  refine ⟨rfl, rfl, by decide, rfl, by decide, by decide⟩

/-- Claim C2 (amended): for an `UPD_UNLOCK_DEVICE` frame on the UID path
(program pin deasserted) with a successful UID read, the first 12 UID bytes
are compared position-by-position with payload bytes 0-11; if any byte
mismatches, `lastError` becomes `UPD_UID_MISSMATCH` and the lock state is
unchanged; if none mismatched the device unlocks with `lastError = SUCCESS`
provided the pre-existing `lastError` was not already `UPD_UID_MISSMATCH` —
otherwise the lock state and `lastError` stay as they were. -/
theorem C2_unlock_uid (env : UpdEnv) (st : UpdState) (data : Nat → Nat)
    (hop : data 2 = UPD_UNLOCK_DEVICE) (hpin : env.progPinStatus = true)
    (hread : env.uidReadStatus = IAP_SUCCESS) :
    ((∃ i ∈ List.range 12, data (i + 3) ≠ env.uid i) →
        (handleMemoryRequests env st data).1.lastError = UPD_UID_MISSMATCH
      ∧ (handleMemoryRequests env st data).1.deviceLocked = st.deviceLocked)
  ∧ ((∀ i ∈ List.range 12, data (i + 3) = env.uid i) →
      (st.lastError ≠ UPD_UID_MISSMATCH →
          (handleMemoryRequests env st data).1.deviceLocked = DEVICE_UNLOCKED
        ∧ (handleMemoryRequests env st data).1.lastError = IAP_SUCCESS)
      ∧ (st.lastError = UPD_UID_MISSMATCH →
          (handleMemoryRequests env st data).1.deviceLocked = st.deviceLocked
        ∧ (handleMemoryRequests env st data).1.lastError = UPD_UID_MISSMATCH)) := by
  have hlatch := foldl_latch_eq UPD_UID_MISSMATCH (fun i => data (i + 3) ≠ env.uid i)
    (List.range 12) st.lastError
  constructor
  · intro hx
    have hsw : (List.range 12).foldl
        (fun le i => if data (i + 3) ≠ env.uid i then UPD_UID_MISSMATCH else le) st.lastError
        = UPD_UID_MISSMATCH := by rw [hlatch, if_pos hx]
    simp only [ne_eq, ite_not] at hsw
    simp [handleMemoryRequests, handleMemoryRequestsSwitch, hop, hpin, hread, hsw,
      UPD_UNLOCK_DEVICE, IAP_SUCCESS]
  · intro hall
    have hnx : ¬ ∃ i ∈ List.range 12, data (i + 3) ≠ env.uid i := by
      push_neg
      exact hall
    have hsw : (List.range 12).foldl
        (fun le i => if data (i + 3) ≠ env.uid i then UPD_UID_MISSMATCH else le) st.lastError
        = st.lastError := by rw [hlatch, if_neg hnx]
    simp only [ne_eq, ite_not] at hsw
    constructor
    · intro hle
      simp [handleMemoryRequests, handleMemoryRequestsSwitch, hop, hpin, hread, hsw,
        hle, UPD_UNLOCK_DEVICE, IAP_SUCCESS]
    · intro hle
      rw [hle] at hsw
      simp [handleMemoryRequests, handleMemoryRequestsSwitch, hop, hpin, hread, hsw,
        hle, UPD_UNLOCK_DEVICE, IAP_SUCCESS]

/-- Witness for C2 (amended): fresh locked state, matching UID, pre-existing
`lastError = 0`; the device unlocks with `lastError = SUCCESS`. -/
theorem C2_unlock_uid_witness :
    env0.progPinStatus = true
  ∧ env0.uidReadStatus = IAP_SUCCESS
  ∧ st0.lastError ≠ UPD_UID_MISSMATCH
  ∧ (handleMemoryRequests env0 st0 (frameOf UPD_UNLOCK_DEVICE)).1.deviceLocked = DEVICE_UNLOCKED
  ∧ (handleMemoryRequests env0 st0 (frameOf UPD_UNLOCK_DEVICE)).1.lastError = IAP_SUCCESS :=
  ⟨rfl, rfl, by decide,
    ((C2_unlock_uid env0 st0 (frameOf UPD_UNLOCK_DEVICE) rfl rfl rfl).2 (by decide)).1
      (by decide) |>.1,
    ((C2_unlock_uid env0 st0 (frameOf UPD_UNLOCK_DEVICE) rfl rfl rfl).2 (by decide)).1
      (by decide) |>.2⟩

/-- Claim C10: on the UID path (program pin deasserted), when `iapReadUID`
reports failure the 12-byte comparison is skipped and the device still
unlocks with `lastError = SUCCESS` whenever the pre-existing `lastError` is
not `UPD_UID_MISSMATCH` — the UID read failure bypasses authentication. -/
theorem C10_uid_read_failure_unlocks (env : UpdEnv) (st : UpdState) (data : Nat → Nat)
    (hop : data 2 = UPD_UNLOCK_DEVICE) (hpin : env.progPinStatus = true)
    (hfail : env.uidReadStatus ≠ IAP_SUCCESS) (hle : st.lastError ≠ UPD_UID_MISSMATCH) :
    (handleMemoryRequests env st data).1.deviceLocked = DEVICE_UNLOCKED
  ∧ (handleMemoryRequests env st data).1.lastError = IAP_SUCCESS := by
  have hfail0 : ¬ (env.uidReadStatus = 0) := by simpa [IAP_SUCCESS] using hfail
  simp [handleMemoryRequests, handleMemoryRequestsSwitch, hop, hpin, hfail0, hle,
    UPD_UNLOCK_DEVICE, IAP_SUCCESS]

/-- Witness for C10: failing UID read, arbitrary (all-zero) payload, fresh
locked state; the device unlocks. -/
theorem C10_uid_read_failure_witness :
    envUidFail.progPinStatus = true
  ∧ envUidFail.uidReadStatus ≠ IAP_SUCCESS
  ∧ st0.lastError ≠ UPD_UID_MISSMATCH
  ∧ (handleMemoryRequests envUidFail st0 (frameOf UPD_UNLOCK_DEVICE)).1.deviceLocked
      = DEVICE_UNLOCKED :=
  ⟨rfl, by decide, by decide,
    (C10_uid_read_failure_unlocks envUidFail st0 (frameOf UPD_UNLOCK_DEVICE) rfl rfl
      (by decide) (by decide)).1⟩

/-- Reading inside a `memcpyBytes` window yields the source byte. -/
theorem memcpyBytes_inside (dstMem src : Nat → Nat) (dst n k : Nat) (hk : k < n) :
    memcpyBytes dstMem dst src n (dst + k) = src k := by
  unfold memcpyBytes
  rw [if_pos ⟨Nat.le_add_right _ _, by omega⟩, Nat.add_sub_cancel_left]

/-- Reading outside a `memcpyBytes` window yields the old byte. -/
theorem memcpyBytes_outside (dstMem src : Nat → Nat) (dst n i : Nat)
    (hi : i < dst ∨ dst + n ≤ i) :
    memcpyBytes dstMem dst src n i = dstMem i := by
  unfold memcpyBytes
  rw [if_neg (by omega)]

/-- Claim C6: an unlocked `UPD_PROGRAM` whose target range passes the policy
check either fails with `UDP_CRC_EROR` (NACK, flash unchanged, staging
cursor reset to 0) when the supplied big-endian CRC at payload bytes 8-11
differs from the CRC-32 (seed `0xFFFFFFFF`) of the first `count` staged
bytes, or — when it matches — programs the staged bytes to flash at the
requested address and resets the cursor to 0. -/
theorem C6_program_crc (env : UpdEnv) (st : UpdState) (data : Nat → Nat)
    (hU : st.deviceLocked = DEVICE_UNLOCKED) (hop : data 2 = UPD_PROGRAM)
    (hra : addressAllowedToProgram env.vectorsStart env.etext (streamToUIn32 data 7)
      (streamToUIn32 data 3) = true) :
    (env.crc32 0xFFFFFFFF st.ramBuffer (streamToUIn32 data 3) ≠ streamToUIn32 data 11 →
        (handleMemoryRequests env st data).2 = T_NACK_PDU
      ∧ (handleMemoryRequests env st data).1.lastError = UDP_CRC_EROR
      ∧ (handleMemoryRequests env st data).1.flash = st.flash
      ∧ (handleMemoryRequests env st data).1.ramLocation = 0)
  ∧ (env.crc32 0xFFFFFFFF st.ramBuffer (streamToUIn32 data 3) = streamToUIn32 data 11 →
        (handleMemoryRequests env st data).1.flash
          = memcpyBytes st.flash (streamToUIn32 data 7) st.ramBuffer (streamToUIn32 data 3)
      ∧ (∀ a, streamToUIn32 data 7 ≤ a → a < streamToUIn32 data 7 + streamToUIn32 data 3 →
          (handleMemoryRequests env st data).1.flash a
            = st.ramBuffer (a - streamToUIn32 data 7))
      ∧ (handleMemoryRequests env st data).1.ramLocation = 0) := by
  constructor
  · intro hcrc
    simp [handleMemoryRequests, handleMemoryRequestsSwitch, hop, hU, hra, hcrc,
      UPD_UNLOCK_DEVICE, UPD_REQUEST_UID, UPD_APP_VERSION_REQUEST, UPD_ERASE_SECTOR,
      UPD_SEND_DATA, UPD_PROGRAM, UDP_CRC_EROR, IAP_SUCCESS, T_NACK_PDU]
  · intro hcrc
    have hflash : (handleMemoryRequests env st data).1.flash
        = memcpyBytes st.flash (streamToUIn32 data 7) st.ramBuffer (streamToUIn32 data 3) := by
      simp [handleMemoryRequests, handleMemoryRequestsSwitch, hop, hU, hra, hcrc,
        iapProgram, UPD_UNLOCK_DEVICE, UPD_REQUEST_UID, UPD_APP_VERSION_REQUEST,
        UPD_ERASE_SECTOR, UPD_SEND_DATA, UPD_PROGRAM, IAP_SUCCESS]
    refine ⟨hflash, ?_, ?_⟩
    · intro a h1 h2
      rw [hflash]
      unfold memcpyBytes
      rw [if_pos ⟨h1, h2⟩]
    · simp [handleMemoryRequests, handleMemoryRequestsSwitch, hop, hU, hra, hcrc,
        UPD_UNLOCK_DEVICE, UPD_REQUEST_UID, UPD_APP_VERSION_REQUEST, UPD_ERASE_SECTOR,
        UPD_SEND_DATA, UPD_PROGRAM, IAP_SUCCESS]

/-- Witness for C6: an unlocked `UPD_PROGRAM` with an all-zero payload (count
0, address 0, supplied CRC 0, trivial CRC function returning 0) takes the
matching-CRC branch and resets the cursor. -/
theorem C6_program_crc_witness :
    stU.deviceLocked = DEVICE_UNLOCKED
  ∧ frameOf UPD_PROGRAM 2 = UPD_PROGRAM
  ∧ addressAllowedToProgram env0.vectorsStart env0.etext
      (streamToUIn32 (frameOf UPD_PROGRAM) 7) (streamToUIn32 (frameOf UPD_PROGRAM) 3) = true
  ∧ (handleMemoryRequests env0 stU (frameOf UPD_PROGRAM)).1.flash
      = memcpyBytes stU.flash (streamToUIn32 (frameOf UPD_PROGRAM) 7) stU.ramBuffer
          (streamToUIn32 (frameOf UPD_PROGRAM) 3)
  ∧ (handleMemoryRequests env0 stU (frameOf UPD_PROGRAM)).1.ramLocation = 0 :=
  ⟨rfl, rfl, by decide,
    ((C6_program_crc env0 stU (frameOf UPD_PROGRAM) rfl rfl (by decide)).2 (by decide)).1,
    ((C6_program_crc env0 stU (frameOf UPD_PROGRAM) rfl rfl (by decide)).2 (by decide)).2.2⟩

/-- First component of the dispatcher result is the switch state. -/
theorem handleMemoryRequests_fst (env : UpdEnv) (st : UpdState) (data : Nat → Nat) :
    (handleMemoryRequests env st data).1 = handleMemoryRequestsSwitch env st data := rfl

/-- Second component of the dispatcher result is the ack/nack decision on the
final `lastError`. -/
theorem handleMemoryRequests_snd (env : UpdEnv) (st : UpdState) (data : Nat → Nat) :
    (handleMemoryRequests env st data).2
      = if (handleMemoryRequestsSwitch env st data).lastError = IAP_SUCCESS
        then T_ACK_PDU else T_NACK_PDU := rfl

/-- State equation for the overflow branch of an unlocked `UPD_SEND_DATA`. -/
theorem sendData_overflow_state (env : UpdEnv) (st : UpdState) (data : Nat → Nat)
    (hU : st.deviceLocked = DEVICE_UNLOCKED) (hop : data 2 = UPD_SEND_DATA)
    (hno : ¬ ((st.ramLocation + (data 0 &&& 0x0f)) % 4294967296 < 4096)) :
    handleMemoryRequestsSwitch env st data
      = { st with lastError := UPD_RAM_BUFFER_OVERFLOW } := by
  simp [handleMemoryRequestsSwitch, hop, hU, hno,
    UPD_UNLOCK_DEVICE, UPD_REQUEST_UID, UPD_APP_VERSION_REQUEST, UPD_ERASE_SECTOR,
    UPD_SEND_DATA]

/-- State equation for the success branch of an unlocked `UPD_SEND_DATA`. -/
theorem sendData_success_state (env : UpdEnv) (st : UpdState) (data : Nat → Nat)
    (hU : st.deviceLocked = DEVICE_UNLOCKED) (hop : data 2 = UPD_SEND_DATA)
    (hyes : (st.ramLocation + (data 0 &&& 0x0f)) % 4294967296 < 4096) :
    handleMemoryRequestsSwitch env st data
      = UpdState.mk
          (memcpyBytes st.ramBuffer st.ramLocation (fun k => data (3 + k)) (data 0 &&& 0x0f))
          ((st.ramLocation + (data 0 &&& 0x0f)) % 4294967296)
          st.deviceLocked IAP_SUCCESS st.flash st.sendTelegram st.sendTel := by
  simp [handleMemoryRequestsSwitch, hop, hU, hyes,
    UPD_UNLOCK_DEVICE, UPD_REQUEST_UID, UPD_APP_VERSION_REQUEST, UPD_ERASE_SECTOR,
    UPD_SEND_DATA, IAP_SUCCESS]

/-- Claim C7: an unlocked `UPD_SEND_DATA` with payload length
`len = data[0] & 0x0F` fails with `UPD_RAM_BUFFER_OVERFLOW` leaving cursor
and buffer unchanged when `cursor + len >= 4096`, and otherwise copies the
`len` payload bytes at offset `cursor`, advances the cursor by `len` and
sets `lastError = SUCCESS`; the cursor always stays at most 4095, so the
buffer accepts at most `RAM_CAP - 1` bytes in total. -/
theorem C7_send_data (env : UpdEnv) (st : UpdState) (data : Nat → Nat)
    (hU : st.deviceLocked = DEVICE_UNLOCKED) (hop : data 2 = UPD_SEND_DATA)
    (hcur : st.ramLocation < 4096) :
    (4096 ≤ st.ramLocation + (data 0 &&& 0x0f) →
        (handleMemoryRequests env st data).1.lastError = UPD_RAM_BUFFER_OVERFLOW
      ∧ (handleMemoryRequests env st data).1.ramLocation = st.ramLocation
      ∧ (handleMemoryRequests env st data).1.ramBuffer = st.ramBuffer
      ∧ (handleMemoryRequests env st data).2 = T_NACK_PDU)
  ∧ (st.ramLocation + (data 0 &&& 0x0f) < 4096 →
        (handleMemoryRequests env st data).1.lastError = IAP_SUCCESS
      ∧ (handleMemoryRequests env st data).1.ramLocation
          = st.ramLocation + (data 0 &&& 0x0f)
      ∧ (∀ k, k < (data 0 &&& 0x0f) →
          (handleMemoryRequests env st data).1.ramBuffer (st.ramLocation + k) = data (3 + k))
      ∧ (∀ i, i < st.ramLocation ∨ st.ramLocation + (data 0 &&& 0x0f) ≤ i →
          (handleMemoryRequests env st data).1.ramBuffer i = st.ramBuffer i))
  ∧ (handleMemoryRequests env st data).1.ramLocation ≤ 4095 := by
  have hcnt : (data 0 &&& 0x0f) ≤ 15 := Nat.and_le_right
  have hmod : (st.ramLocation + (data 0 &&& 0x0f)) % 4294967296
      = st.ramLocation + (data 0 &&& 0x0f) := Nat.mod_eq_of_lt (by omega)
  refine ⟨?_, ?_, ?_⟩
  · intro hov
    have hstate := sendData_overflow_state env st data hU hop (by omega)
    refine ⟨?_, ?_, ?_, ?_⟩
    · rw [handleMemoryRequests_fst, hstate]
    · rw [handleMemoryRequests_fst, hstate]
    · rw [handleMemoryRequests_fst, hstate]
    · rw [handleMemoryRequests_snd, hstate]
      simp [UPD_RAM_BUFFER_OVERFLOW, IAP_SUCCESS, T_NACK_PDU]
  · intro hlt
    have hstate := sendData_success_state env st data hU hop (by omega)
    refine ⟨?_, ?_, ?_, ?_⟩
    · rw [handleMemoryRequests_fst, hstate]
    · rw [handleMemoryRequests_fst, hstate]
      exact hmod
    · intro k hk
      rw [handleMemoryRequests_fst, hstate]
      exact memcpyBytes_inside st.ramBuffer (fun k => data (3 + k)) st.ramLocation
        (data 0 &&& 0x0f) k hk
    · intro i hi
      rw [handleMemoryRequests_fst, hstate]
      exact memcpyBytes_outside st.ramBuffer (fun k => data (3 + k)) st.ramLocation
        (data 0 &&& 0x0f) i hi
  · by_cases hlt : st.ramLocation + (data 0 &&& 0x0f) < 4096
    · have hstate := sendData_success_state env st data hU hop (by omega)
      rw [handleMemoryRequests_fst, hstate]
      show (st.ramLocation + (data 0 &&& 0x0f)) % 4294967296 ≤ 4095
      omega
    · have hstate := sendData_overflow_state env st data hU hop (by omega)
      rw [handleMemoryRequests_fst, hstate]
      show st.ramLocation ≤ 4095
      omega

/-- Witness for C7: an unlocked `UPD_SEND_DATA` frame on the state with
cursor 7 (payload length 0, so the copy succeeds trivially). -/
theorem C7_send_data_witness :
    stUCursor.deviceLocked = DEVICE_UNLOCKED
  ∧ frameOf UPD_SEND_DATA 2 = UPD_SEND_DATA
  ∧ stUCursor.ramLocation < 4096
  ∧ ((handleMemoryRequests env0 stUCursor (frameOf UPD_SEND_DATA)).1.lastError = IAP_SUCCESS
      ∧ (handleMemoryRequests env0 stUCursor (frameOf UPD_SEND_DATA)).1.ramLocation
          = stUCursor.ramLocation + (frameOf UPD_SEND_DATA 0 &&& 0x0f))
  ∧ (handleMemoryRequests env0 stUCursor (frameOf UPD_SEND_DATA)).1.ramLocation ≤ 4095 :=
  ⟨rfl, rfl, by decide,
    ⟨((C7_send_data env0 stUCursor (frameOf UPD_SEND_DATA) rfl rfl (by decide)).2.1
        (by decide)).1,
      ((C7_send_data env0 stUCursor (frameOf UPD_SEND_DATA) rfl rfl (by decide)).2.1
        (by decide)).2.1⟩,
    (C7_send_data env0 stUCursor (frameOf UPD_SEND_DATA) rfl rfl (by decide)).2.2⟩

/-- Claim C8: every dispatched frame ends with an ack/nack decided by the
final `lastError` — the dispatcher returns `T_ACK_PDU` iff the final
`lastError` is `IAP_SUCCESS` and `T_NACK_PDU` otherwise — and every frame
whose opcode byte is not one of the handled commands sets
`lastError = UDP_UNKONW_COMMAND` (0x100). -/
theorem C8_ack_iff_success (env : UpdEnv) (st : UpdState) (data : Nat → Nat) :
    ((handleMemoryRequests env st data).2 = T_ACK_PDU ↔
      (handleMemoryRequests env st data).1.lastError = IAP_SUCCESS)
  ∧ ((handleMemoryRequests env st data).2 = T_ACK_PDU
      ∨ (handleMemoryRequests env st data).2 = T_NACK_PDU)
  ∧ (data 2 ∉ handledOpcodes →
      (handleMemoryRequests env st data).1.lastError = UDP_UNKONW_COMMAND) := by
  refine ⟨?_, ?_, ?_⟩
  · rw [handleMemoryRequests_fst, handleMemoryRequests_snd]
    by_cases h : (handleMemoryRequestsSwitch env st data).lastError = IAP_SUCCESS
    · simp [h]
    · simp [h, T_ACK_PDU, T_NACK_PDU]
  · rw [handleMemoryRequests_snd]
    by_cases h : (handleMemoryRequestsSwitch env st data).lastError = IAP_SUCCESS
    · exact Or.inl (by rw [if_pos h])
    · exact Or.inr (by rw [if_neg h])
  · intro hmem
    have h0 : data 2 ≠ UPD_ERASE_SECTOR := fun h => hmem (by rw [h]; simp [handledOpcodes])
    have h1 : data 2 ≠ UPD_SEND_DATA := fun h => hmem (by rw [h]; simp [handledOpcodes])
    have h2 : data 2 ≠ UPD_PROGRAM := fun h => hmem (by rw [h]; simp [handledOpcodes])
    have h3 : data 2 ≠ UPD_UPDATE_BOOT_DESC := fun h => hmem (by rw [h]; simp [handledOpcodes])
    have h10 : data 2 ≠ UPD_REQ_DATA := fun h => hmem (by rw [h]; simp [handledOpcodes])
    have h20 : data 2 ≠ UPD_GET_LAST_ERROR := fun h => hmem (by rw [h]; simp [handledOpcodes])
    have h30 : data 2 ≠ UPD_UNLOCK_DEVICE := fun h => hmem (by rw [h]; simp [handledOpcodes])
    have h31 : data 2 ≠ UPD_REQUEST_UID := fun h => hmem (by rw [h]; simp [handledOpcodes])
    have h33 : data 2 ≠ UPD_APP_VERSION_REQUEST :=
      fun h => hmem (by rw [h]; simp [handledOpcodes])
    rw [handleMemoryRequests_fst]
    have hstate : handleMemoryRequestsSwitch env st data
        = { st with lastError := UDP_UNKONW_COMMAND } := by
      simp [handleMemoryRequestsSwitch, h0, h1, h2, h3, h10, h20, h30, h31, h33]
    rw [hstate]

/-- Witness for C8: the unrecognized opcode 99 ends with
`lastError = UDP_UNKONW_COMMAND`. -/
theorem C8_ack_iff_success_witness :
    frameOf 99 2 ∉ handledOpcodes
  ∧ (handleMemoryRequests env0 st0 (frameOf 99)).1.lastError = UDP_UNKONW_COMMAND :=
  ⟨by decide, (C8_ack_iff_success env0 st0 (frameOf 99)).2.2 (by decide)⟩

/-- State equation for `UPD_GET_LAST_ERROR`: reply prepared, the four
little-endian `lastError` bytes copied at offset 10, `lastError` cleared. -/
theorem getLastError_state (env : UpdEnv) (st : UpdState) (data : Nat → Nat)
    (hop : data 2 = UPD_GET_LAST_ERROR) :
    handleMemoryRequestsSwitch env st data
      = UpdState.mk st.ramBuffer st.ramLocation st.deviceLocked IAP_SUCCESS st.flash
          (memcpyBytes (_prepareReturnTelegram st.sendTelegram 4 UPD_SEND_LAST_ERROR) 10
            (fun k => st.lastError / 2 ^ (8 * k) % 256) 4)
          true := by
  simp [handleMemoryRequestsSwitch, hop,
    UPD_UNLOCK_DEVICE, UPD_REQUEST_UID, UPD_APP_VERSION_REQUEST, UPD_ERASE_SECTOR,
    UPD_SEND_DATA, UPD_PROGRAM, UPD_UPDATE_BOOT_DESC, UPD_REQ_DATA, UPD_GET_LAST_ERROR,
    IAP_SUCCESS]

/-- Claim C9: `UPD_GET_LAST_ERROR` (in any lock state) flags a reply frame
whose payload bytes 10..13 hold the current 4-byte `lastError`
little-endian as it sits in device memory, then clears `lastError` to
`SUCCESS`; consequently the frame is ACKed and an immediately subsequent
`UPD_GET_LAST_ERROR` reports `SUCCESS` (all four reply bytes 0). -/
theorem C9_get_last_error (env : UpdEnv) (st : UpdState) (data : Nat → Nat)
    (hop : data 2 = UPD_GET_LAST_ERROR) :
    (handleMemoryRequests env st data).1.sendTel = true
  ∧ (∀ k, k < 4 →
      (handleMemoryRequests env st data).1.sendTelegram (10 + k)
        = st.lastError / 2 ^ (8 * k) % 256)
  ∧ (handleMemoryRequests env st data).1.lastError = IAP_SUCCESS
  ∧ (handleMemoryRequests env st data).2 = T_ACK_PDU
  ∧ (∀ k, k < 4 →
      (handleMemoryRequests env (handleMemoryRequests env st data).1 data).1.sendTelegram
        (10 + k) = 0) := by
  have hstate := getLastError_state env st data hop
  refine ⟨?_, ?_, ?_, ?_, ?_⟩
  · rw [handleMemoryRequests_fst, hstate]
  · intro k hk
    rw [handleMemoryRequests_fst, hstate]
    exact memcpyBytes_inside (_prepareReturnTelegram st.sendTelegram 4 UPD_SEND_LAST_ERROR)
      (fun k => st.lastError / 2 ^ (8 * k) % 256) 10 4 k hk
  · rw [handleMemoryRequests_fst, hstate]
  · rw [handleMemoryRequests_snd, hstate]
    simp
  · intro k hk
    have hstate2 := getLastError_state env (handleMemoryRequests env st data).1 data hop
    rw [handleMemoryRequests_fst, hstate2]
    show memcpyBytes
      (_prepareReturnTelegram (handleMemoryRequests env st data).1.sendTelegram 4
        UPD_SEND_LAST_ERROR)
      10 (fun j => (handleMemoryRequests env st data).1.lastError / 2 ^ (8 * j) % 256) 4
      (10 + k) = 0
    rw [memcpyBytes_inside
      (_prepareReturnTelegram (handleMemoryRequests env st data).1.sendTelegram 4
        UPD_SEND_LAST_ERROR)
      (fun j => (handleMemoryRequests env st data).1.lastError / 2 ^ (8 * j) % 256) 10 4 k hk]
    show (handleMemoryRequests env st data).1.lastError / 2 ^ (8 * k) % 256 = 0
    have hle : (handleMemoryRequests env st data).1.lastError = IAP_SUCCESS := by
      rw [handleMemoryRequests_fst, hstate]
    rw [hle]
    simp [IAP_SUCCESS]

/-- Witness for C9: reading the error register after a UID mismatch returns
its low byte 0x08 at reply offset 10, and a second read returns 0. -/
theorem C9_get_last_error_witness :
    frameOf UPD_GET_LAST_ERROR 2 = UPD_GET_LAST_ERROR
  ∧ (handleMemoryRequests env0 stMismatch (frameOf UPD_GET_LAST_ERROR)).1.sendTelegram (10 + 0)
      = stMismatch.lastError / 2 ^ (8 * 0) % 256
  ∧ (handleMemoryRequests env0 stMismatch (frameOf UPD_GET_LAST_ERROR)).2 = T_ACK_PDU
  ∧ (handleMemoryRequests env0
      (handleMemoryRequests env0 stMismatch (frameOf UPD_GET_LAST_ERROR)).1
      (frameOf UPD_GET_LAST_ERROR)).1.sendTelegram (10 + 0) = 0 :=
  ⟨rfl,
    (C9_get_last_error env0 stMismatch (frameOf UPD_GET_LAST_ERROR) rfl).2.1 0 (by decide),
    (C9_get_last_error env0 stMismatch (frameOf UPD_GET_LAST_ERROR) rfl).2.2.2.1,
    (C9_get_last_error env0 stMismatch (frameOf UPD_GET_LAST_ERROR) rfl).2.2.2.2 0 (by decide)⟩
